import Mathlib

/-!
Verification development for the docker-runner repository.

The repository has two source files implementing the same deployment agent:
the runtime-API variant (dockerode-based, `src/unnamed/part_000`) and the
legacy shell-parsing variant (`src/docker-runner.js`).  This file embeds the
core functions of both variants and proves the specified properties.
-/

namespace DockerRunner

/-! ## MD5 (the cryptographic hash used by determineImagePort).

Node crypto.createHash md5 .update(s).digest hex hashes the UTF-8
encoding of the string and renders the 16-byte digest as 32 lowercase hex
characters.  We implement MD5 over byte lists, with 32-bit words as Nat
reduced mod 2^32. -/

namespace MD5

def shiftTable : List Nat :=
  [7, 12, 17, 22, 7, 12, 17, 22, 7, 12, 17, 22, 7, 12, 17, 22,
   5, 9, 14, 20, 5, 9, 14, 20, 5, 9, 14, 20, 5, 9, 14, 20,
   4, 11, 16, 23, 4, 11, 16, 23, 4, 11, 16, 23, 4, 11, 16, 23,
   6, 10, 15, 21, 6, 10, 15, 21, 6, 10, 15, 21, 6, 10, 15, 21]

def sineTable : List Nat :=
  [0xd76aa478, 0xe8c7b756, 0x242070db, 0xc1bdceee,
   0xf57c0faf, 0x4787c62a, 0xa8304613, 0xfd469501,
   0x698098d8, 0x8b44f7af, 0xffff5bb1, 0x895cd7be,
   0x6b901122, 0xfd987193, 0xa679438e, 0x49b40821,
   0xf61e2562, 0xc040b340, 0x265e5a51, 0xe9b6c7aa,
   0xd62f105d, 0x02441453, 0xd8a1e681, 0xe7d3fbc8,
   0x21e1cde6, 0xc33707d6, 0xf4d50d87, 0x455a14ed,
   0xa9e3e905, 0xfcefa3f8, 0x676f02d9, 0x8d2a4c8a,
   0xfffa3942, 0x8771f681, 0x6d9d6122, 0xfde5380c,
   0xa4beea44, 0x4bdecfa9, 0xf6bb4b60, 0xbebfbc70,
   0x289b7ec6, 0xeaa127fa, 0xd4ef3085, 0x04881d05,
   0xd9d4d039, 0xe6db99e5, 0x1fa27cf8, 0xc4ac5665,
   0xf4292244, 0x432aff97, 0xab9423a7, 0xfc93a039,
   0x655b59c3, 0x8f0ccc92, 0xffeff47d, 0x85845dd1,
   0x6fa87e4f, 0xfe2ce6e0, 0xa3014314, 0x4e0811a1,
   0xf7537e82, 0xbd3af235, 0x2ad7d2bb, 0xeb86d391]

def m32 : Nat := 4294967296

def not32 (x : Nat) : Nat := Nat.xor x 0xffffffff

def rotl32 (x n : Nat) : Nat :=
  Nat.lor ((x <<< n) % m32) (x >>> (32 - n))

/-- Little-endian 32-bit word `g` of a 64-byte block. -/
def word (blk : List Nat) (g : Nat) : Nat :=
  blk.getD (4 * g) 0 + 256 * blk.getD (4 * g + 1) 0 +
    65536 * blk.getD (4 * g + 2) 0 + 16777216 * blk.getD (4 * g + 3) 0

/-- One of the 64 MD5 rounds. -/
def round (blk : List Nat) (st : Nat × Nat × Nat × Nat) (i : Nat) :
    Nat × Nat × Nat × Nat :=
  let (a, b, c, d) := st
  let fg : Nat × Nat :=
    if i < 16 then
      (Nat.lor (Nat.land b c) (Nat.land (not32 b) d), i)
    else if i < 32 then
      (Nat.lor (Nat.land d b) (Nat.land (not32 d) c), (5 * i + 1) % 16)
    else if i < 48 then
      (Nat.xor (Nat.xor b c) d, (3 * i + 5) % 16)
    else
      (Nat.xor c (Nat.lor b (not32 d)), (7 * i) % 16)
  let f := (fg.1 + a + sineTable.getD i 0 + word blk fg.2) % m32
  (d, (b + rotl32 f (shiftTable.getD i 0)) % m32, b, c)

def processBlock (st : Nat × Nat × Nat × Nat) (blk : List Nat) :
    Nat × Nat × Nat × Nat :=
  let (a0, b0, c0, d0) := st
  let (a, b, c, d) := (List.range 64).foldl (round blk) (a0, b0, c0, d0)
  ((a0 + a) % m32, (b0 + b) % m32, (c0 + c) % m32, (d0 + d) % m32)

/-- The eight little-endian bytes of the original bit length mod 2^64. -/
def lengthBytes (len : Nat) : List Nat :=
  let bits := (8 * len) % 18446744073709551616
  [bits % 256, bits / 256 % 256, bits / 65536 % 256, bits / 16777216 % 256,
   bits / 4294967296 % 256, bits / 1099511627776 % 256,
   bits / 281474976710656 % 256, bits / 72057594037927936 % 256]

/-- Append 0x80, zero bytes to 56 mod 64, then the 64-bit length field. -/
def padMessage (msg : List Nat) : List Nat :=
  let z := (120 - (msg.length + 1) % 64) % 64
  msg ++ 128 :: List.replicate z 0 ++ lengthBytes msg.length

def md5Words (msg : List Nat) : Nat × Nat × Nat × Nat :=
  let padded := padMessage msg
  let blocks := (List.range (padded.length / 64)).map
    (fun i => (padded.drop (64 * i)).take 64)
  blocks.foldl processBlock (0x67452301, 0xefcdab89, 0x98badcfe, 0x10325476)

def wordLEBytes (w : Nat) : List Nat :=
  [w % 256, w / 256 % 256, w / 65536 % 256, w / 16777216 % 256]

/-- The 16-byte MD5 digest of a byte list. -/
def md5Bytes (msg : List Nat) : List Nat :=
  let (a, b, c, d) := md5Words msg
  wordLEBytes a ++ wordLEBytes b ++ wordLEBytes c ++ wordLEBytes d

def hexChar (n : Nat) : Char := "0123456789abcdef".data.getD n '0'

def byteHex (b : Nat) : List Char := [hexChar (b / 16), hexChar (b % 16)]

/-- Lowercase hex rendering of the digest (digest hex). -/
def md5Hex (msg : List Nat) : String := ⟨(md5Bytes msg).flatMap byteHex⟩

/-- The md5 hex digest of a JS string: the hash of the UTF-8 encoding
of s. -/
def md5HexOfString (s : String) : String :=
  md5Hex (s.toUTF8.toList.map (fun b => b.toNat))

end MD5

/-! ## JS string and parseInt models.

JS strings of hex characters are ASCII, so we model substr/indexOf directly
on the character list. -/

/-- JS s.substr(start, len). -/
def jsSubstr (s : String) (start len : Nat) : String :=
  ⟨(s.data.drop start).take len⟩

def hexDigitVal (c : Char) : Option Nat :=
  if '0' ≤ c ∧ c ≤ '9' then some (c.toNat - '0'.toNat)
  else if 'a' ≤ c ∧ c ≤ 'f' then some (c.toNat - 'a'.toNat + 10)
  else if 'A' ≤ c ∧ c ≤ 'F' then some (c.toNat - 'A'.toNat + 10)
  else none

def decDigitVal (c : Char) : Option Nat :=
  if '0' ≤ c ∧ c ≤ '9' then some (c.toNat - '0'.toNat) else none

/-- JS parseInt digit loop: longest prefix of digits; NaN (none) if empty. -/
def parseDigits (dv : Char → Option Nat) (base : Nat) (cs : List Char) :
    Option Nat :=
  let ds := cs.takeWhile (fun c => (dv c).isSome)
  if ds.isEmpty then none
  else some (ds.foldl (fun a c => a * base + (dv c).getD 0) 0)

/-- JS parseInt(s, 16): an optional 0x/0X marker is skipped. -/
def jsParseIntHex16 (s : String) : Option Nat :=
  match s.data with
  | '0' :: 'x' :: rest => parseDigits hexDigitVal 16 rest
  | '0' :: 'X' :: rest => parseDigits hexDigitVal 16 rest
  | cs => parseDigits hexDigitVal 16 cs

/-- JS parseInt(s) with no radix: a 0x/0X marker selects base 16,
otherwise base 10. -/
def jsParseIntNoRadix (s : String) : Option Nat :=
  match s.data with
  | '0' :: 'x' :: rest => parseDigits hexDigitVal 16 rest
  | '0' :: 'X' :: rest => parseDigits hexDigitVal 16 rest
  | cs => parseDigits decDigitVal 10 cs

/-! ## Data model.

Runtime objects as the code observes them (docker.listImages /
docker.listContainers output), the parsed command-line options, and an
explicit world of outcomes for the external runtime calls.  Each embedded
function is state-passing: it returns an `Except` result together with the
state at the moment it returned — side effects performed before an exception
persist, as they do in the program. -/

structure ImageRecord where
  Id : String
  RepoTags : List String
deriving DecidableEq

structure ContainerRecord where
  Id : String
  Names : List String
  Running : Bool
deriving DecidableEq

structure DockerState where
  images : List ImageRecord
  containers : List ContainerRecord
deriving DecidableEq

/-- The nomnom-parsed command line (part_000).  `name`, `detach` and `image`
are required; the rest are optional. -/
structure Options where
  name : String
  net : Option String := none
  volume : Option (List String) := none
  env : Option (List String) := none
  detach : Bool
  tty : Bool := false
  restart : Option (List String) := none
  image : String
  authConfig : Option String := none

structure Err where
  msg : String
deriving DecidableEq

/-- Outcomes of the external runtime calls of one reconciliation pass:
whether docker.pull rejects, whether the pull progress stream reports an
error, the image list the registry leaves behind after a successful pull,
whether stop/remove/create/start reject, the id the runtime assigns to a
created container, and which image removals fail during garbage
collection. -/
structure World where
  pullErr : Option Err := none
  streamErr : Option Err := none
  imagesAfterPull : List ImageRecord := []
  stopErr : Option Err := none
  removeContainerErr : Option Err := none
  createErr : Option Err := none
  startErr : Option Err := none
  newContainerId : String := "c0"
  removeImageFails : String → Bool := fun _ => false

/-- docker.createContainer options built by runImage. -/
structure CreateOptions where
  Image : String
  name : Option String := none
  Env : Option (List String) := none
  Tty : Bool := false
deriving DecidableEq

/-- container.start options built by runImage. -/
structure StartOptions where
  NetworkMode : Option String := none
  Binds : Option (List String) := none
  RestartPolicy : Option String := none
deriving DecidableEq

/-- Observable runtime mutations, in the order they are issued. -/
inductive Event where
  | pull (image : String)
  | stopC (id : String)
  | removeC (id : String)
  | createC (opts : CreateOptions)
  | startC (id : String) (opts : StartOptions)
  | removeI (id : String)
deriving DecidableEq

/-- Whether an event is a lifecycle mutation or a garbage-collection
removal (everything except the pull itself). -/
def Event.isMutation : Event → Bool
  | .pull _ => false
  | .stopC _ => true
  | .removeC _ => true
  | .createC _ => true
  | .startC _ _ => true
  | .removeI _ => true

structure St where
  opts : Options
  world : World
  docker : DockerState
  trace : List Event

/-- A state-passing computation that can throw; the state at the moment of
the throw is kept (side effects already performed persist). -/
def M (α : Type) : Type := St → Except Err α × St

/-! ## Embedded source functions (runtime-API variant, src/unnamed/part_000). -/

/-- getImageName: options.image up to the first ':' (the whole string when
there is none). -/
def getImageName (image : String) : String :=
  match image.data.findIdx? (fun c => c = ':') with
  | none => image
  | some index => ⟨image.data.take index⟩

/-- getImageId: the Id of the first listed image whose RepoTags contains
options.image verbatim; none when there is no such image. -/
def getImageId (images : List ImageRecord) (image : String) : Option String :=
  (images.find? (fun i => i.RepoTags.contains image)).map (fun i => i.Id)

/-- determineImagePort: md5 hex of options.image, parseInt of the 0x
marker plus hash.substr(0, 4) at radix 16, then % 16384 + 49152.  none
models the JS NaN case (unreachable: the digest is hex). -/
def determineImagePort (image : String) : Option Nat :=
  let hash := MD5.md5HexOfString image
  (jsParseIntHex16 ("0x" ++ jsSubstr hash 0 4)).map
    (fun port => port % 16384 + 49152)

/-- pullImage: read the image id, docker.pull (authconfig passed through
when options.authConfig is set; its effect on the outcome is part of the
world), await the progress stream, read the id again, return whether it
changed. -/
def pullImage : M Bool := fun st =>
  let previousId := getImageId st.docker.images st.opts.image
  match st.world.pullErr with
  | some e => (.error e, st)
  | none =>
    match st.world.streamErr with
    | some e => (.error e, st)
    | none =>
      let docker := { st.docker with images := st.world.imagesAfterPull }
      let st' := { st with docker := docker
                           trace := st.trace ++ [Event.pull st.opts.image] }
      let currentId := getImageId st'.docker.images st.opts.image
      (.ok (decide (currentId ≠ previousId)), st')

/-- getContainerId: the Id of the first container (all = true) whose Names
contains the slash-prefixed name. -/
def getContainerId (containers : List ContainerRecord) (name : String) :
    Option String :=
  (containers.find? (fun c => c.Names.contains ("/" ++ name))).map
    (fun c => c.Id)

/-- stopContainer: no-op when no container has the name, or when it is not
running; otherwise issue a stop. -/
def stopContainer : M Unit := fun st =>
  match getContainerId st.docker.containers st.opts.name with
  | none => (.ok (), st)
  | some id =>
    match st.docker.containers.find? (fun c => c.Id == id) with
    | none => (.error ⟨"no such container"⟩, st)
    | some c =>
      if !c.Running then (.ok (), st)
      else
        match st.world.stopErr with
        | some e => (.error e, st)
        | none =>
          let containers := st.docker.containers.map
            (fun c => if c.Id == id then { c with Running := false } else c)
          let docker := { st.docker with containers := containers }
          (.ok (), { st with docker := docker
                             trace := st.trace ++ [Event.stopC id] })

/-- removeContainer: no-op when no container has the name; otherwise issue
a remove. -/
def removeContainer : M Unit := fun st =>
  match getContainerId st.docker.containers st.opts.name with
  | none => (.ok (), st)
  | some id =>
    match st.world.removeContainerErr with
    | some e => (.error e, st)
    | none =>
      let containers := st.docker.containers.filter (fun c => c.Id ≠ id)
      let docker := { st.docker with containers := containers }
      (.ok (), { st with docker := docker
                         trace := st.trace ++ [Event.removeC id] })

/-- The createOptions of runImage as assembled before the detach check:
Image, then name (JS truthiness: a non-empty string), then Env. -/
def createOptionsBase (o : Options) : CreateOptions :=
  let co : CreateOptions := { Image := o.image }
  let co := if o.name ≠ "" then { co with name := some o.name } else co
  match o.env with
  | some e => { co with Env := some e }
  | none => co

/-- The startOptions of runImage as assembled before the detach check:
NetworkMode, then Binds. -/
def startOptionsBase (o : Options) : StartOptions :=
  let so : StartOptions := {}
  let so :=
    match o.net with
    | some n => { so with NetworkMode := some n }
    | none => so
  match o.volume with
  | some v => { so with Binds := some v }
  | none => so

/-- The Tty flag, set after the detach check. -/
def createOptionsFinal (o : Options) : CreateOptions :=
  if o.tty then { createOptionsBase o with Tty := true }
  else createOptionsBase o

/-- The restart policy, set after the detach check; only `always` is
recognized. -/
def startOptionsFinal (o : Options) : StartOptions :=
  match o.restart with
  | some rs =>
    if rs.contains "always" then
      { startOptionsBase o with RestartPolicy := some "always" }
    else startOptionsBase o
  | none => startOptionsBase o

/-- runImage: build create/start options; throw before contacting the
runtime when detach is off; then createContainer and container.start.  The
created container is listed under the slash-prefixed name, not running
until started. -/
def runImage : M Unit := fun st =>
  if !st.opts.detach then (.error ⟨"non detached mode is unsupported"⟩, st)
  else
    match st.world.createErr with
    | some e => (.error e, st)
    | none =>
      let newC : ContainerRecord :=
        { Id := st.world.newContainerId
          Names := ["/" ++ st.opts.name]
          Running := false }
      let docker₁ := { st.docker with containers := st.docker.containers ++ [newC] }
      let st₁ := { st with docker := docker₁
                           trace := st.trace ++ [Event.createC (createOptionsFinal st.opts)] }
      match st.world.startErr with
      | some e => (.error e, st₁)
      | none =>
        let containers := st₁.docker.containers.map
          (fun c => if c.Id == st.world.newContainerId then { c with Running := true } else c)
        let docker₂ := { st₁.docker with containers := containers }
        (.ok (), { st₁ with docker := docker₂
                            trace := st₁.trace ++ [Event.startC st.world.newContainerId (startOptionsFinal st.opts)] })

/-- The dangling marker. -/
def danglingTags : List String := ["<none>:<none>"]

/-- The removal loop of removeOldImages: each dangling image is removed
independently; a failed removal is logged (console.error) and the loop
continues. -/
def gcLoop (fails : String → Bool) :
    List ImageRecord → List ImageRecord → List ImageRecord × List Event
  | [], imgs => (imgs, [])
  | image :: rest, imgs =>
    if fails image.Id then gcLoop fails rest imgs
    else
      let imgs' := imgs.filter (fun i => i.Id ≠ image.Id)
      let (r, evts) := gcLoop fails rest imgs'
      (r, Event.removeI image.Id :: evts)

/-- removeOldImages: list the images, keep those whose RepoTags is exactly
the dangling marker, remove each, tolerating individual failures. -/
def removeOldImages : M Unit := fun st =>
  let images := st.docker.images.filter
    (fun image => image.RepoTags == danglingTags)
  let (imgs', evts) := gcLoop st.world.removeImageFails images st.docker.images
  let docker := { st.docker with images := imgs' }
  (.ok (), { st with docker := docker, trace := st.trace ++ evts })

/-- check: one reconciliation pass — if pullImage reports a change, stop,
remove, run, then collect garbage; an exception in any step ends the pass
there. -/
def check : M Unit := fun st =>
  match pullImage st with
  | (.error e, st₁) => (.error e, st₁)
  | (.ok changed, st₁) =>
    if changed then
      match stopContainer st₁ with
      | (.error e, st₂) => (.error e, st₂)
      | (.ok _, st₂) =>
        match removeContainer st₂ with
        | (.error e, st₃) => (.error e, st₃)
        | (.ok _, st₃) =>
          match runImage st₃ with
          | (.error e, st₄) => (.error e, st₄)
          | (.ok _, st₄) => removeOldImages st₄
    else (.ok (), st₁)

/-! ## The webhook handler (the POST branch of listenImagePush). -/

/-- The parsed webhook payload: repository.repo_name and callback_url. -/
structure Payload where
  repoName : String
  callbackUrl : String

/-- What one handled POST produces: the HTTP status set on the response,
the state field of the JSON body POSTed to the callback URL, whether
check() was invoked, and the state the pass left behind. -/
structure WebhookResult where
  status : Nat
  callbackState : String
  callbackUrl : String
  reconcileInvoked : Bool
  finalSt : St

/-- The POST branch of listenImagePush: compare repo_name with the
configured image name, reconcile only on a match, report err/success to
the callback URL, always answer 204. -/
def listenImagePush (payload : Payload) : St → WebhookResult := fun st =>
  let name := getImageName st.opts.image
  if payload.repoName ≠ name then
    { status := 204, callbackState := "error",
      callbackUrl := payload.callbackUrl, reconcileInvoked := false,
      finalSt := st }
  else
    match check st with
    | (.ok _, st') =>
      { status := 204, callbackState := "success",
        callbackUrl := payload.callbackUrl, reconcileInvoked := true,
        finalSt := st' }
    | (.error _, st') =>
      { status := 204, callbackState := "error",
        callbackUrl := payload.callbackUrl, reconcileInvoked := true,
        finalSt := st' }

/-! ## Legacy shell-parsing variant (src/docker-runner.js). -/

namespace Legacy

/-- One row of the shellParser output of docker images --no-trunc. -/
structure ImageRow where
  REPOSITORY : String
  TAG : String
  IMAGEID : String
deriving DecidableEq

/-- getImageName (identical to the one of the API variant). -/
def getImageName (image : String) : String :=
  match image.data.findIdx? (fun c => c = ':') with
  | none => image
  | some index => ⟨image.data.take index⟩

/-- getImageTag: the part after the first ':', defaulting to latest. -/
def getImageTag (image : String) : String :=
  match image.data.findIdx? (fun c => c = ':') with
  | none => "latest"
  | some index => ⟨image.data.drop (index + 1)⟩

/-- getImageId: find the row whose REPOSITORY/TAG match the parsed name and
tag; rows model the parsed output of docker images --no-trunc. -/
def getImageId (rows : List ImageRow) (image : String) : Option String :=
  (rows.find? (fun r =>
    r.REPOSITORY == getImageName image && r.TAG == getImageTag image)).map
    (fun r => r.IMAGEID)

/-- determineImagePort: as the API variant but with parseInt given no
radix (the 0x marker selects base 16). -/
def determineImagePort (image : String) : Option Nat :=
  let hash := MD5.md5HexOfString image
  (jsParseIntNoRadix ("0x" ++ jsSubstr hash 0 4)).map
    (fun port => port % 16384 + 49152)

end Legacy

/-! ## Concrete scenario states used by witnesses and counterexamples. -/

/-- Scenario B: a running container named web, and a pull that replaces
the image id, with one dangling image left behind afterwards. -/
def c1St : St :=
  { opts := { name := "web", detach := true, image := "myorg/app:v1" }
    world := { imagesAfterPull := [⟨"sha256:new", ["myorg/app:v1"]⟩,
                                   ⟨"sha256:old", ["<none>:<none>"]⟩]
               newContainerId := "cnew" }
    docker := { images := [⟨"sha256:old", ["myorg/app:v1"]⟩]
                containers := [⟨"cweb", ["/web"], true⟩] }
    trace := [] }

def c1St₁ : St := (pullImage c1St).2

/-- Scenario A: the pull leaves the image list unchanged. -/
def c2St : St :=
  { opts := { name := "web", detach := true, image := "myorg/app:v1" }
    world := { imagesAfterPull := [⟨"sha256:old", ["myorg/app:v1"]⟩] }
    docker := { images := [⟨"sha256:old", ["myorg/app:v1"]⟩]
                containers := [⟨"cweb", ["/web"], true⟩] }
    trace := [] }

def c2St₁ : St := (pullImage c2St).2

/-- A pull that changes the image id. -/
def c3St : St :=
  { opts := { name := "web", detach := true, image := "myorg/app:v1" }
    world := { imagesAfterPull := [⟨"sha256:new", ["myorg/app:v1"]⟩] }
    docker := { images := [⟨"sha256:old", ["myorg/app:v1"]⟩]
                containers := [] }
    trace := [] }

/-- A pull whose transport fails. -/
def c3ErrSt : St :=
  { opts := { name := "web", detach := true, image := "myorg/app:v1" }
    world := { pullErr := some ⟨"network error"⟩ }
    docker := { images := [⟨"sha256:old", ["myorg/app:v1"]⟩]
                containers := [] }
    trace := [] }

/-- A webhook payload for a different repository. -/
def c5Payload : Payload :=
  { repoName := "other/app", callbackUrl := "http://cb.example/x" }

def c5St : St :=
  { opts := { name := "web", detach := true, image := "myorg/app:v1" }
    world := {}
    docker := { images := [], containers := [] }
    trace := [] }

/-- Detach disabled, with a pull that reports a change and no container
yet. -/
def c6St : St :=
  { opts := { name := "web", detach := false, image := "myorg/app:v1" }
    world := { imagesAfterPull := [⟨"sha256:new", ["myorg/app:v1"]⟩] }
    docker := { images := [], containers := [] }
    trace := [] }

def c6St₁ : St := (pullImage c6St).2

def c6St₂ : St := (stopContainer c6St₁).2

def c6St₃ : St := (removeContainer c6St₂).2

/-- Scenario D: two dangling images and one tagged image. -/
def c7St : St :=
  { opts := { name := "web", detach := true, image := "myorg/app:v1" }
    world := {}
    docker := { images := [⟨"i1", ["<none>:<none>"]⟩,
                           ⟨"i2", ["<none>:<none>"]⟩,
                           ⟨"i3", ["myorg/app:v1"]⟩]
                containers := [] }
    trace := [] }

/-- A runtime image store holding only myorg/app:latest. -/
def c8Images : List ImageRecord := [⟨"sha256:abc", ["myorg/app:latest"]⟩]

/-- The corresponding docker images table of the legacy variant. -/
def c8Rows : List Legacy.ImageRow := [⟨"myorg/app", "latest", "sha256:abc"⟩]

/-- A ref with no tag, never matching any RepoTags entry, with a pull that
succeeds. -/
def c10St : St :=
  { opts := { name := "web", detach := true, image := "myorg/app" }
    world := { imagesAfterPull := [⟨"sha256:n", ["myorg/app:latest"]⟩] }
    docker := { images := [], containers := [] }
    trace := [] }

/-! ## Spec-side definitions used by refinement statements. -/

/-- The description of the port algorithm in the spec: "take the first 16 bits
of the hex digest as an unsigned integer" — the value of the first four hex
characters of the digest. -/
def firstSixteenBits (hexDigest : String) : Nat :=
  (hexDigest.data.take 4).foldl (fun a c => a * 16 + (hexDigitVal c).getD 0) 0

/-! ## Helper lemmas. -/

theorem takeWhile_all {α : Type} {p : α → Bool} (l : List α)
    (h : ∀ a ∈ l, p a) : l.takeWhile p = l :=
  List.takeWhile_eq_self_iff.mpr h

theorem hexChar_isHexDigit (n : Nat) : (hexDigitVal (MD5.hexChar n)).isSome := by
  by_cases h : n < 16
  · exact (by decide : ∀ m < 16, (hexDigitVal (MD5.hexChar m)).isSome) n h
  · have hd : MD5.hexChar n = '0' := by
      unfold MD5.hexChar
      apply List.getD_eq_default
      have : ("0123456789abcdef".data).length = 16 := by decide
      omega
    rw [hd]; decide

theorem md5Hex_chars_hex (msg : List Nat) :
    ∀ c ∈ (MD5.md5Hex msg).data, (hexDigitVal c).isSome := by
  intro c hc
  have : c ∈ (MD5.md5Bytes msg).flatMap MD5.byteHex := hc
  rw [List.mem_flatMap] at this
  obtain ⟨b, _, hcb⟩ := this
  simp only [MD5.byteHex, List.mem_cons, List.not_mem_nil, or_false] at hcb
  rcases hcb with h | h <;> rw [h] <;> exact hexChar_isHexDigit _

theorem md5Bytes_length (msg : List Nat) : (MD5.md5Bytes msg).length = 16 := by
  rcases h : MD5.md5Words msg with ⟨a, b, c, d⟩
  simp [MD5.md5Bytes, h, MD5.wordLEBytes]

theorem md5Hex_length (msg : List Nat) : (MD5.md5Hex msg).data.length = 32 := by
  show ((MD5.md5Bytes msg).flatMap MD5.byteHex).length = 32
  rw [List.length_flatMap]
  have hcomp : (List.length ∘ MD5.byteHex) = fun _ : Nat => 2 := by
    funext b
    simp [MD5.byteHex]
  rw [hcomp, List.map_const', md5Bytes_length]
  rfl

theorem md5HexOfString_chars_hex (s : String) :
    ∀ c ∈ (MD5.md5HexOfString s).data, (hexDigitVal c).isSome :=
  md5Hex_chars_hex _

theorem md5HexOfString_length (s : String) :
    (MD5.md5HexOfString s).data.length = 32 :=
  md5Hex_length _

theorem string_append_0x (t : String) :
    ("0x" ++ t).data = '0' :: 'x' :: t.data := by
  rcases t with ⟨d⟩
  rfl

theorem jsParseIntHex16_append0x (t : String) :
    jsParseIntHex16 ("0x" ++ t) = parseDigits hexDigitVal 16 t.data := by
  unfold jsParseIntHex16
  rw [string_append_0x]
  rfl

theorem jsParseIntNoRadix_append0x (t : String) :
    jsParseIntNoRadix ("0x" ++ t) = parseDigits hexDigitVal 16 t.data := by
  unfold jsParseIntNoRadix
  rw [string_append_0x]
  rfl

/-- parseInt at radix 16 on the 0x marker plus 4 hex chars succeeds and
equals the hex value. -/
theorem jsParseIntHex16_on_digest (hash : String)
    (hhex : ∀ c ∈ hash.data, (hexDigitVal c).isSome)
    (hlen : hash.data.length = 32) :
    jsParseIntHex16 ("0x" ++ jsSubstr hash 0 4) =
      some (firstSixteenBits hash) := by
  have hdata : (jsSubstr hash 0 4).data = hash.data.take 4 := by
    simp [jsSubstr]
  rw [jsParseIntHex16_append0x, hdata]
  simp only [parseDigits]
  have hall : ∀ c ∈ hash.data.take 4, (hexDigitVal c).isSome :=
    fun c hc => hhex c (List.mem_of_mem_take hc)
  rw [takeWhile_all _ hall]
  have hne : hash.data.take 4 ≠ [] := by
    intro hnil
    have := congrArg List.length hnil
    simp [hlen] at this
  have hemp : (hash.data.take 4).isEmpty = false :=
    List.isEmpty_eq_false.mpr hne
  rw [hemp]
  rfl

/-- C9: the port derivations of the legacy shell-parsing variant and of
the runtime-API variant compute the same port for every image ref
string. -/
theorem determineImagePort_variants_agree (image : String) :
    Legacy.determineImagePort image = determineImagePort image := by
  simp only [Legacy.determineImagePort, determineImagePort]
  rw [jsParseIntNoRadix_append0x, jsParseIntHex16_append0x]

/-- C4: determineImagePort is a deterministic pure function of the ref
string; its value is (first 16 bits of the md5 hex digest) % 16384 + 49152,
and it always lies in [49152, 65535]. -/
theorem determineImagePort_deterministic_range (s : String) :
    ∃ p, determineImagePort s = some p ∧
      determineImagePort s = determineImagePort s ∧
      p = firstSixteenBits (MD5.md5HexOfString s) % 16384 + 49152 ∧
      49152 ≤ p ∧ p ≤ 65535 := by
  refine ⟨firstSixteenBits (MD5.md5HexOfString s) % 16384 + 49152, ?_, rfl, rfl, ?_, ?_⟩
  · simp only [determineImagePort]
    rw [jsParseIntHex16_on_digest (MD5.md5HexOfString s)
      (md5HexOfString_chars_hex s) (md5HexOfString_length s)]
    rfl
  · omega
  · have : firstSixteenBits (MD5.md5HexOfString s) % 16384 < 16384 :=
      Nat.mod_lt _ (by norm_num)
    omega

/-! ## Step-shape lemmas for the reconciliation pass. -/

theorem pullImage_ok_shape {st : St} {b : Bool} {st₁ : St}
    (h : pullImage st = (.ok b, st₁)) :
    st₁.opts = st.opts ∧ st₁.world = st.world ∧
    st₁.docker.containers = st.docker.containers ∧
    st₁.docker.images = st.world.imagesAfterPull ∧
    st₁.trace = st.trace ++ [Event.pull st.opts.image] := by
  simp only [pullImage] at h
  split at h
  · simp at h
  · split at h
    · simp at h
    · simp only [Prod.mk.injEq, Except.ok.injEq] at h
      obtain ⟨-, h2⟩ := h
      subst h2
      exact ⟨rfl, rfl, rfl, rfl, rfl⟩

theorem stopContainer_ok_shape {st st' : St}
    (h : stopContainer st = (.ok (), st')) :
    st'.opts = st.opts ∧ st'.world = st.world ∧
    ∃ evts, st'.trace = st.trace ++ evts ∧
      ∀ e ∈ evts, ∃ i, e = Event.stopC i := by
  simp only [stopContainer] at h
  split at h
  · cases h
    exact ⟨rfl, rfl, [], by simp⟩
  · split at h
    · simp at h
    · split at h
      · cases h
        exact ⟨rfl, rfl, [], by simp⟩
      · split at h
        · simp at h
        · simp only [Prod.mk.injEq] at h
          obtain ⟨-, h2⟩ := h
          subst h2
          exact ⟨rfl, rfl, _, rfl, by simp⟩

theorem removeContainer_ok_shape {st st' : St}
    (h : removeContainer st = (.ok (), st')) :
    st'.opts = st.opts ∧ st'.world = st.world ∧
    ∃ evts, st'.trace = st.trace ++ evts ∧
      ∀ e ∈ evts, ∃ i, e = Event.removeC i := by
  simp only [removeContainer] at h
  split at h
  · cases h
    exact ⟨rfl, rfl, [], by simp⟩
  · split at h
    · simp at h
    · simp only [Prod.mk.injEq] at h
      obtain ⟨-, h2⟩ := h
      subst h2
      exact ⟨rfl, rfl, _, rfl, by simp⟩

theorem runImage_ok_shape {st st' : St}
    (h : runImage st = (.ok (), st')) :
    st'.opts = st.opts ∧ st'.world = st.world ∧
    st'.trace = st.trace ++
      [Event.createC (createOptionsFinal st.opts),
       Event.startC st.world.newContainerId (startOptionsFinal st.opts)] := by
  simp only [runImage] at h
  split at h
  · simp at h
  · split at h
    · simp at h
    · split at h
      · simp at h
      · simp only [Prod.mk.injEq] at h
        obtain ⟨-, h2⟩ := h
        subst h2
        exact ⟨rfl, rfl, by simp⟩

theorem gcLoop_events (f : String → Bool) :
    ∀ (ds imgs : List ImageRecord), ∀ e ∈ (gcLoop f ds imgs).2,
      ∃ i, e = Event.removeI i := by
  intro ds
  induction ds with
  | nil =>
    intro imgs e he
    simp [gcLoop] at he
  | cons d rest ih =>
    intro imgs e he
    cases hf : f d.Id with
    | true =>
      rw [gcLoop, if_pos hf] at he
      exact ih imgs e he
    | false =>
      rcases hg : gcLoop f rest (imgs.filter (fun i => i.Id ≠ d.Id)) with ⟨r, evts⟩
      rw [gcLoop.eq_def] at he
      simp only [hf, Bool.false_eq_true, if_false] at he
      rw [hg] at he
      simp only [List.mem_cons] at he
      rcases he with he | he
      · exact ⟨d.Id, he⟩
      · apply ih (imgs.filter (fun i => i.Id ≠ d.Id)) e
        rw [hg]
        exact he

theorem removeOldImages_ok_shape {st st' : St}
    (h : removeOldImages st = (.ok (), st')) :
    st'.opts = st.opts ∧ st'.world = st.world ∧
    st'.docker.containers = st.docker.containers ∧
    ∃ evts, st'.trace = st.trace ++ evts ∧
      ∀ e ∈ evts, ∃ i, e = Event.removeI i := by
  simp only [removeOldImages] at h
  rcases hg : gcLoop st.world.removeImageFails
      (st.docker.images.filter (fun image => image.RepoTags == danglingTags))
      st.docker.images with ⟨imgs', evts⟩
  rw [hg] at h
  simp only [Prod.mk.injEq] at h
  obtain ⟨-, h2⟩ := h
  subst h2
  refine ⟨rfl, rfl, rfl, evts, rfl, ?_⟩
  have hk := gcLoop_events st.world.removeImageFails
    (st.docker.images.filter (fun image => image.RepoTags == danglingTags))
    st.docker.images
  rw [hg] at hk
  exact hk

/-- C1: when pullImage reports a change, check runs stopContainer, then
removeContainer, then runImage (create+start), then removeOldImages, in
that exact order (witnessed by the event trace), and an exception raised
by any of these steps ends the pass at that step and propagates. -/
theorem check_changed_runs_exact_sequence (st st₁ : St)
    (hpull : pullImage st = (.ok true, st₁)) :
    (∀ st', check st = (.ok (), st') →
      ∃ st₂ st₃ st₄,
        stopContainer st₁ = (.ok (), st₂) ∧
        removeContainer st₂ = (.ok (), st₃) ∧
        runImage st₃ = (.ok (), st₄) ∧
        removeOldImages st₄ = (.ok (), st') ∧
        ∃ e₁ e₂ e₄,
          st'.trace = st₁.trace ++ e₁ ++ e₂ ++
            [Event.createC (createOptionsFinal st.opts),
             Event.startC st.world.newContainerId (startOptionsFinal st.opts)] ++ e₄ ∧
          (∀ e ∈ e₁, ∃ i, e = Event.stopC i) ∧
          (∀ e ∈ e₂, ∃ i, e = Event.removeC i) ∧
          (∀ e ∈ e₄, ∃ i, e = Event.removeI i)) ∧
    (∀ e st₂, stopContainer st₁ = (.error e, st₂) →
      check st = (.error e, st₂)) ∧
    (∀ st₂ e st₃, stopContainer st₁ = (.ok (), st₂) →
      removeContainer st₂ = (.error e, st₃) → check st = (.error e, st₃)) ∧
    (∀ st₂ st₃ e st₄, stopContainer st₁ = (.ok (), st₂) →
      removeContainer st₂ = (.ok (), st₃) →
      runImage st₃ = (.error e, st₄) → check st = (.error e, st₄)) := by
  have hred : check st =
      (match stopContainer st₁ with
       | (Except.error e, st₂) => (Except.error e, st₂)
       | (Except.ok _, st₂) =>
         match removeContainer st₂ with
         | (Except.error e, st₃) => (Except.error e, st₃)
         | (Except.ok _, st₃) =>
           match runImage st₃ with
           | (Except.error e, st₄) => (Except.error e, st₄)
           | (Except.ok _, st₄) => removeOldImages st₄) := by
    unfold check
    rw [hpull]
    rfl
  refine ⟨?_, ?_, ?_, ?_⟩
  · intro st' h
    rw [hred] at h
    split at h
    · simp at h
    · rename_i u st₂ hstop
      split at h
      · simp at h
      · rename_i u₂ st₃ hrem
        split at h
        · simp at h
        · rename_i u₃ st₄ hrun
          obtain ⟨ho₁, hw₁, -, -, -⟩ := pullImage_ok_shape hpull
          obtain ⟨ho₂, hw₂, e₁, ht₂, hk₁⟩ := stopContainer_ok_shape hstop
          obtain ⟨ho₃, hw₃, e₂, ht₃, hk₂⟩ := removeContainer_ok_shape hrem
          obtain ⟨ho₄, hw₄, ht₄⟩ := runImage_ok_shape hrun
          obtain ⟨-, -, -, e₄, ht₅, hk₄⟩ := removeOldImages_ok_shape h
          refine ⟨st₂, st₃, st₄, hstop, hrem, hrun, h, e₁, e₂, e₄, ?_,
            hk₁, hk₂, hk₄⟩
          rw [ht₅, ht₄, ht₃, ht₂, ho₃, ho₂, ho₁, hw₃, hw₂, hw₁]
  · intro e st₂ hstop
    rw [hred]
    simp only [hstop]
  · intro st₂ e st₃ hstop hrem
    rw [hred]
    simp only [hstop, hrem]
  · intro st₂ st₃ e st₄ hstop hrem hrun
    rw [hred]
    simp only [hstop, hrem, hrun]

theorem check_changed_runs_exact_sequence_witness :
    ∃ st₂ st₃ st₄,
      stopContainer c1St₁ = (.ok (), st₂) ∧
      removeContainer st₂ = (.ok (), st₃) ∧
      runImage st₃ = (.ok (), st₄) ∧
      removeOldImages st₄ = (.ok (), (check c1St).2) ∧
      ∃ e₁ e₂ e₄,
        ((check c1St).2).trace = c1St₁.trace ++ e₁ ++ e₂ ++
          [Event.createC (createOptionsFinal c1St.opts),
           Event.startC c1St.world.newContainerId (startOptionsFinal c1St.opts)] ++ e₄ ∧
        (∀ e ∈ e₁, ∃ i, e = Event.stopC i) ∧
        (∀ e ∈ e₂, ∃ i, e = Event.removeC i) ∧
        (∀ e ∈ e₄, ∃ i, e = Event.removeI i) :=
  (check_changed_runs_exact_sequence c1St c1St₁ rfl).1 (check c1St).2 rfl

/-- C2: when pullImage reports no change, check stops there: no lifecycle
mutation, no garbage collection; the containers are untouched and the only
observable runtime interaction of the pass is the pull itself. -/
theorem check_unchanged_no_mutations (st st₁ : St)
    (hpull : pullImage st = (.ok false, st₁)) :
    check st = (.ok (), st₁) ∧
    st₁.docker.containers = st.docker.containers ∧
    ∃ evts, st₁.trace = st.trace ++ evts ∧ ∀ e ∈ evts, e.isMutation = false := by
  obtain ⟨-, -, hc, -, ht⟩ := pullImage_ok_shape hpull
  refine ⟨?_, hc, ⟨[Event.pull st.opts.image], ht, ?_⟩⟩
  · unfold check
    rw [hpull]
    rfl
  · intro e he
    simp only [List.mem_singleton] at he
    subst he
    rfl

theorem check_unchanged_no_mutations_witness :
    check c2St = (.ok (), c2St₁) ∧
    c2St₁.docker.containers = c2St.docker.containers ∧
    ∃ evts, c2St₁.trace = c2St.trace ++ evts ∧
      ∀ e ∈ evts, e.isMutation = false :=
  check_unchanged_no_mutations c2St c2St₁ rfl

/-- C3: pullImage returns true iff the image id resolved for the ref after
the pull differs from the id resolved before it, and a pull that fails at
the transport level (docker.pull rejecting, or the progress stream
reporting an error) propagates as an error, never as false. -/
theorem pullImage_change_detection (st : St) :
    (∀ b st₁, pullImage st = (.ok b, st₁) →
      (b = true ↔ getImageId st.world.imagesAfterPull st.opts.image ≠
        getImageId st.docker.images st.opts.image)) ∧
    (∀ e, st.world.pullErr = some e → pullImage st = (.error e, st)) ∧
    (∀ e, st.world.pullErr = none → st.world.streamErr = some e →
      pullImage st = (.error e, st)) := by
  refine ⟨?_, ?_, ?_⟩
  · intro b st₁ h
    simp only [pullImage] at h
    split at h
    · simp at h
    · split at h
      · simp at h
      · simp only [Prod.mk.injEq, Except.ok.injEq] at h
        obtain ⟨h1, -⟩ := h
        subst h1
        simp
  · intro e he
    simp only [pullImage, he]
  · intro e hp hs
    simp only [pullImage, hp, hs]

theorem pullImage_change_detection_witness :
    (true = true ↔ getImageId c3St.world.imagesAfterPull c3St.opts.image ≠
      getImageId c3St.docker.images c3St.opts.image) ∧
    pullImage c3ErrSt = (.error ⟨"network error"⟩, c3ErrSt) :=
  ⟨(pullImage_change_detection c3St).1 true (pullImage c3St).2 rfl,
   (pullImage_change_detection c3ErrSt).2.1 ⟨"network error"⟩ rfl⟩

/-- C10: when no image record matches the configured ref string either
before or after a successful pull, pullImage returns false, so check
treats the pass as unchanged and never reaches the redeploy branch. -/
theorem sync_absent_image_reports_unchanged (st : St)
    (hp : st.world.pullErr = none) (hs : st.world.streamErr = none)
    (hbefore : getImageId st.docker.images st.opts.image = none)
    (hafter : getImageId st.world.imagesAfterPull st.opts.image = none) :
    ∃ st₁, pullImage st = (.ok false, st₁) ∧ check st = (.ok (), st₁) ∧
      st₁.docker.containers = st.docker.containers ∧
      st₁.trace = st.trace ++ [Event.pull st.opts.image] := by
  have h1 : pullImage st = (.ok false,
      { st with docker := { st.docker with images := st.world.imagesAfterPull }
                trace := st.trace ++ [Event.pull st.opts.image] }) := by
    simp only [pullImage, hp, hs]
    simp [hbefore, hafter]
  refine ⟨_, h1, ?_, rfl, rfl⟩
  unfold check
  rw [h1]
  rfl

theorem sync_absent_image_reports_unchanged_witness :
    ∃ st₁, pullImage c10St = (.ok false, st₁) ∧ check c10St = (.ok (), st₁) ∧
      st₁.docker.containers = c10St.docker.containers ∧
      st₁.trace = c10St.trace ++ [Event.pull c10St.opts.image] :=
  sync_absent_image_reports_unchanged c10St rfl rfl rfl rfl

/-- C5: a webhook POST whose repository.repo_name differs from the name
portion of the configured image ref never invokes the reconciliation and
reports callback state error; and whatever the outcome, the HTTP response
status is 204. -/
theorem webhook_mismatch_and_status (payload : Payload) (st : St) :
    (payload.repoName ≠ getImageName st.opts.image →
      (listenImagePush payload st).reconcileInvoked = false ∧
      (listenImagePush payload st).callbackState = "error" ∧
      (listenImagePush payload st).finalSt = st) ∧
    (listenImagePush payload st).status = 204 := by
  constructor
  · intro hne
    unfold listenImagePush
    rw [if_pos hne]
    exact ⟨rfl, rfl, rfl⟩
  · unfold listenImagePush
    by_cases hne : payload.repoName ≠ getImageName st.opts.image
    · rw [if_pos hne]
    · rw [if_neg hne]
      rcases h : check st with ⟨r, st'⟩
      cases r <;> rfl

theorem webhook_mismatch_and_status_witness :
    ((listenImagePush c5Payload c5St).reconcileInvoked = false ∧
     (listenImagePush c5Payload c5St).callbackState = "error" ∧
     (listenImagePush c5Payload c5St).finalSt = c5St) ∧
    (listenImagePush c5Payload c5St).status = 204 :=
  ⟨(webhook_mismatch_and_status c5Payload c5St).1 (by decide),
   (webhook_mismatch_and_status c5Payload c5St).2⟩

/-- C6 counterexample: with detach disabled, the reconciliation pass that
detects a change fails with the non-detached configuration error, but the
pull has already taken place by then — the pull event is in the trace at
the moment of failure, refuting failure before any pull. -/
theorem nondetached_pull_precedes_failure :
    (check c6St).1 = Except.error ⟨"non detached mode is unsupported"⟩ ∧
    (check c6St).2.trace = [Event.pull "myorg/app:v1"] :=
  ⟨rfl, rfl⟩

/-- C6 (amended): when detach is disabled, runImage throws the
configuration error before contacting the runtime inside the create+start
operation — no create or start call is ever issued — but the error
surfaces only when the pass reaches that step, after the pull (and any
stop/remove) of the pass has already happened. -/
theorem nondetached_fails_at_create (st st₁ st₂ st₃ : St)
    (htrace : st.trace = [])
    (hdet : st.opts.detach = false)
    (hpull : pullImage st = (.ok true, st₁))
    (hstop : stopContainer st₁ = (.ok (), st₂))
    (hrem : removeContainer st₂ = (.ok (), st₃)) :
    check st = (.error ⟨"non detached mode is unsupported"⟩, st₃) ∧
    Event.pull st.opts.image ∈ st₃.trace ∧
    ∀ e ∈ st₃.trace, (∀ co, e ≠ Event.createC co) ∧
      (∀ i so, e ≠ Event.startC i so) := by
  obtain ⟨ho₁, hw₁, -, -, ht₁⟩ := pullImage_ok_shape hpull
  obtain ⟨ho₂, hw₂, e₁, ht₂, hk₁⟩ := stopContainer_ok_shape hstop
  obtain ⟨ho₃, hw₃, e₂, ht₃, hk₂⟩ := removeContainer_ok_shape hrem
  have hdet₃ : st₃.opts.detach = false := by
    rw [ho₃, ho₂, ho₁, hdet]
  have hrun : runImage st₃ = (.error ⟨"non detached mode is unsupported"⟩, st₃) := by
    unfold runImage
    rw [hdet₃]
    rfl
  refine ⟨?_, ?_, ?_⟩
  · unfold check
    simp only [hpull, hstop, hrem, hrun]
    simp
  · rw [ht₃, ht₂, ht₁, htrace]
    simp
  · intro e he
    rw [ht₃, ht₂, ht₁, htrace] at he
    simp only [List.nil_append, List.mem_append, List.mem_singleton] at he
    rcases he with (he | he) | he
    · subst he
      exact ⟨fun co => by simp, fun i so => by simp⟩
    · obtain ⟨i, rfl⟩ := hk₁ e he
      exact ⟨fun co => by simp, fun i so => by simp⟩
    · obtain ⟨i, rfl⟩ := hk₂ e he
      exact ⟨fun co => by simp, fun i so => by simp⟩

theorem nondetached_fails_at_create_witness :
    check c6St = (.error ⟨"non detached mode is unsupported"⟩, c6St₃) ∧
    Event.pull c6St.opts.image ∈ c6St₃.trace ∧
    ∀ e ∈ c6St₃.trace, (∀ co, e ≠ Event.createC co) ∧
      (∀ i so, e ≠ Event.startC i so) :=
  nondetached_fails_at_create c6St c6St₁ c6St₂ c6St₃ rfl rfl rfl rfl rfl

theorem removeOldImages_never_fails (st : St) :
    ∃ st', removeOldImages st = (.ok (), st') := by
  rcases hg : gcLoop st.world.removeImageFails
      (st.docker.images.filter (fun image => image.RepoTags == danglingTags))
      st.docker.images with ⟨imgs', evts⟩
  refine ⟨{ st with docker := { st.docker with images := imgs' }
                    trace := st.trace ++ evts }, ?_⟩
  simp only [removeOldImages]
  rw [hg]

theorem gcLoop_result (f : String → Bool) :
    ∀ (ds imgs r : List ImageRecord) (evts : List Event),
      gcLoop f ds imgs = (r, evts) →
      r = imgs.filter
        (fun i => !((ds.filter (fun d => !f d.Id)).map (fun d => d.Id)).contains i.Id) := by
  intro ds
  induction ds with
  | nil =>
    intro imgs r evts hg
    simp only [gcLoop, Prod.mk.injEq] at hg
    obtain ⟨h1, -⟩ := hg
    subst h1
    simp
  | cons d rest ih =>
    intro imgs r evts hg
    rw [gcLoop.eq_def] at hg
    cases hf : f d.Id with
    | true =>
      simp only [hf, if_true] at hg
      have hr := ih imgs r evts hg
      rw [hr]
      apply List.filter_congr
      intro i _
      simp [hf]
    | false =>
      simp only [hf, Bool.false_eq_true, if_false] at hg
      rcases hg2 : gcLoop f rest (imgs.filter (fun i => i.Id ≠ d.Id)) with ⟨r₂, evts₂⟩
      rw [hg2] at hg
      simp only [Prod.mk.injEq] at hg
      obtain ⟨h1, -⟩ := hg
      subst h1
      have hr := ih _ r₂ evts₂ hg2
      rw [hr, List.filter_filter]
      apply List.filter_congr
      intro i _
      simp [hf, Bool.and_comm, Bool.beq_eq_decide_eq]

/-- C7: removeOldImages removes exactly the images whose tag list is the
dangling marker and whose individual removal succeeds; every other image
is untouched, and a failure to remove one image does not prevent the removal
of the remaining dangling images (the collector itself never throws). -/
theorem removeOldImages_selective (st : St)
    (hids : (st.docker.images.map (fun i => i.Id)).Nodup) :
    ∃ st', removeOldImages st = (.ok (), st') ∧
      st'.docker.images = st.docker.images.filter
        (fun i => !(i.RepoTags == danglingTags && !st.world.removeImageFails i.Id)) ∧
      st'.docker.containers = st.docker.containers := by
  rcases hg : gcLoop st.world.removeImageFails
      (st.docker.images.filter (fun image => image.RepoTags == danglingTags))
      st.docker.images with ⟨imgs', evts⟩
  refine ⟨{ st with docker := { st.docker with images := imgs' }
                    trace := st.trace ++ evts }, ?_, ?_, rfl⟩
  · simp only [removeOldImages]
    rw [hg]
  · show imgs' = _
    have hr := gcLoop_result st.world.removeImageFails _ _ _ _ hg
    rw [hr]
    apply List.filter_congr
    intro i hi
    have hinj := List.inj_on_of_nodup_map hids
    congr 1
    rw [Bool.eq_iff_iff]
    simp only [List.contains_iff_exists_mem_beq, List.mem_map, List.mem_filter,
      beq_iff_eq, Bool.and_eq_true, Bool.not_eq_true']
    constructor
    · rintro ⟨jid, ⟨j, ⟨⟨hjmem, hjd⟩, hjf⟩, rfl⟩, hij⟩
      have : j = i := hinj hjmem hi (by rw [hij])
      subst this
      exact ⟨hjd, by simpa using hjf⟩
    · rintro ⟨hD, hF⟩
      exact ⟨i.Id, ⟨i, ⟨⟨hi, hD⟩, by simpa using hF⟩, rfl⟩, rfl⟩

theorem removeOldImages_selective_witness :
    ∃ st', removeOldImages c7St = (.ok (), st') ∧
      st'.docker.images = c7St.docker.images.filter
        (fun i => !(i.RepoTags == danglingTags && !c7St.world.removeImageFails i.Id)) ∧
      st'.docker.containers = c7St.docker.containers :=
  removeOldImages_selective c7St (by decide)

/-- C8 counterexample: with a runtime store holding myorg/app:latest, the
getImageId of the runtime-API variant resolves the tagless ref myorg/app
to nothing — it does not treat it as myorg/app:latest, which resolves —
while the getImageId of the legacy variant does default the tag to
latest. -/
theorem default_tag_cex :
    getImageId c8Images "myorg/app" = none ∧
    getImageId c8Images "myorg/app:latest" = some "sha256:abc" ∧
    Legacy.getImageId c8Rows "myorg/app" = some "sha256:abc" :=
  ⟨rfl, rfl, rfl⟩

/-- C8 (amended): the default-latest interpretation of a tagless ref holds
only in the legacy shell-parsing variant, whose getImageTag yields latest
and whose getImageId matches REPOSITORY = ref and TAG = latest; the
getImageId of the runtime-API variant matches the raw ref string against
RepoTags verbatim, with no tag defaulting. -/
theorem default_tag_variant_behaviour (image : String)
    (rows : List Legacy.ImageRow) (images : List ImageRecord)
    (hnc : ':' ∉ image.data) :
    Legacy.getImageTag image = "latest" ∧
    Legacy.getImageName image = image ∧
    Legacy.getImageId rows image =
      (rows.find? (fun r => r.REPOSITORY == image && r.TAG == "latest")).map
        (fun r => r.IMAGEID) ∧
    ((getImageId images image).isSome ↔ ∃ r ∈ images, image ∈ r.RepoTags) := by
  have hidx : image.data.findIdx? (fun c => c = ':') = none := by
    rw [List.findIdx?_eq_none_iff]
    intro x hx
    simp only [decide_eq_false_iff_not]
    intro hcol
    rw [hcol] at hx
    exact hnc hx
  have htag : Legacy.getImageTag image = "latest" := by
    unfold Legacy.getImageTag
    rw [hidx]
  have hname : Legacy.getImageName image = image := by
    unfold Legacy.getImageName
    rw [hidx]
  refine ⟨htag, hname, ?_, ?_⟩
  · unfold Legacy.getImageId
    simp only [hname, htag]
  · unfold getImageId
    simp [List.find?_isSome, List.contains_iff_exists_mem_beq]

theorem default_tag_variant_behaviour_witness :
    Legacy.getImageTag "myorg/app" = "latest" ∧
    Legacy.getImageName "myorg/app" = "myorg/app" ∧
    Legacy.getImageId c8Rows "myorg/app" =
      (c8Rows.find? (fun r => r.REPOSITORY == "myorg/app" && r.TAG == "latest")).map
        (fun r => r.IMAGEID) ∧
    ((getImageId c8Images "myorg/app").isSome ↔
      ∃ r ∈ c8Images, "myorg/app" ∈ r.RepoTags) :=
  default_tag_variant_behaviour "myorg/app" c8Rows c8Images (by decide)

end DockerRunner
